import Mathlib

/-!
Shallow embedding of `src/app.py` (Streamlit vehicle-damage-detection app).

The app's observable behaviour per user interaction is modelled as a trace
of UI events, filesystem operations and library calls.  The opaque YOLO
library (model loading, prediction, image saving, Streamlit rendering) is
modelled by an oracle whose calls may fail with a Python exception text.
-/

set_option autoImplicit false

namespace App

/-- Bytes of an uploaded file. -/
abbrev ByteSeq := List Nat

/-- An image as a height-by-width-by-channel nested list, as a numpy
`uint8` array of shape `(H, W, 3)` is laid out. -/
abbrev Img := List (List (List Nat))

/-- A detection box, per the model library's contract: a class label and a
bounding box. -/
structure Box where
  cls : Nat
  xyxy : List Int
deriving DecidableEq

/-- One element of the list returned by `model.predict`: it offers a
`plot()` image (BGR channel order) and a `boxes` list. -/
structure YoloResult where
  plotImg : Img
  boxes : List Box
deriving DecidableEq

/-- User-visible UI events emitted by the handlers (`st.error`,
`st.success`, `st.info`, `st.image`, `st.subheader`). -/
inductive Ev where
  | error (msg : String)
  | success (msg : String)
  | info (msg : String)
  | image (path : String) (caption : String)
  | subheader (s : String)
deriving DecidableEq

/-- File contents written to disk: raw uploaded bytes, or a saved image. -/
inductive FileData where
  | bytes (b : List Nat)
  | image (img : Img)
deriving DecidableEq

/-- Filesystem operations.  The vocabulary includes deletion so that the
absence of deletions in the app's traces is a statement, not a tautology of
the trace type; the embedded code only ever emits `write`, as the source
only ever opens files for writing. -/
inductive FsOp where
  | write (path : String) (data : FileData)
  | delete (path : String)
deriving DecidableEq

/-- Calls into the opaque model / imaging libraries. -/
inductive LibCall where
  | loadModel
  | predict
  | plot
  | saveImage
  | renderImage
deriving DecidableEq

/-- Trace of one handler run: UI events, filesystem ops, library calls,
each in program order. -/
structure Trace where
  events : List Ev
  ops : List FsOp
  calls : List LibCall

deriving instance DecidableEq for Except

/-- Oracle for the opaque library calls made inside the `try` block of the
analyze handler.  Each call either returns or raises an exception whose
`str(e)` is the given string. -/
structure Oracle where
  load : Except String Unit
  predict : Except String (List YoloResult)
  saveImg : Except String Unit
  render : Except String Unit
deriving DecidableEq

/-- Constant `UPLOAD_FOLDER` from the source. -/
def UPLOAD_FOLDER : String := "uploads"

/-- Constant `RESULT_FOLDER` from the source. -/
def RESULT_FOLDER : String := "results"

/-- Join `os.path.join(dir, name)` for a relative `name`, as used in the source
with a folder constant and a generated file name. -/
def osPathJoin (dir name : String) : String := dir ++ "/" ++ name

/-- Index of the last occurrence of `c` in `l`, if any (`str.rfind`). -/
def lastIndexOf (c : Char) : List Char → Option Nat
  | [] => none
  | x :: xs =>
    match lastIndexOf c xs with
    | some k => some (k + 1)
    | none => if x = c then some 0 else none

/-- CPython `str.rfind`: last index of `c`, or `-1` when absent. -/
def rfind (c : Char) (l : List Char) : Int :=
  match lastIndexOf c l with
  | some k => (k : Int)
  | none => -1

/-- The loop inside CPython's `posixpath.splitext`: starting at the char
after the last separator, scan towards the last dot; the dot starts an
extension iff some scanned char is not a dot (a basename of only leading
dots has no extension). -/
def hasNonDotBetween (p : List Char) (start stop : Nat) : Bool :=
  ((p.drop start).take (stop - start)).any (fun ch => ch ≠ '.')

/-- CPython `posixpath._splitext` on the character list of the path:
split at the last `.` that lies after the last `/` and after at least one
non-dot character of the basename. -/
def splitextCore (p : List Char) : List Char × List Char :=
  if rfind '/' p < rfind '.' p then
    if hasNonDotBetween p (rfind '/' p + 1).toNat (rfind '.' p).toNat then
      (p.take (rfind '.' p).toNat, p.drop (rfind '.' p).toNat)
    else (p, [])
  else (p, [])

/-- CPython `os.path.splitext` on strings. -/
def splitext (s : String) : String × String :=
  (⟨(splitextCore s.data).1⟩, ⟨(splitextCore s.data).2⟩)

/-- Source line `file_ext = os.path.splitext(uploaded_file.name)[-1]` (the second
component of the pair). -/
def file_ext (name : String) : String := (splitext name).2

/-- Source line `unique_filename = f"{uuid.uuid4()}{file_ext}"` with the rendered
UUID4 string passed in as `uuidStr`. -/
def unique_filename (uuidStr name : String) : String :=
  uuidStr ++ file_ext name

/-- Source line `input_path = os.path.join(UPLOAD_FOLDER, unique_filename)`. -/
def input_path (uf : String) : String := osPathJoin UPLOAD_FOLDER uf

/-- Source line `result_filename = f"result_{unique_filename}"`. -/
def result_filename (uf : String) : String := "result_" ++ uf

/-- Source line `result_path = os.path.join(RESULT_FOLDER, result_filename)`. -/
def result_path (uf : String) : String :=
  osPathJoin RESULT_FOLDER (result_filename uf)

/-- The error message of the missing-model branch
(`st.error(f"Model file not found at: {MODEL_PATH}. ...")`). -/
def modelNotFoundMsg (modelPath : String) : String :=
  "Model file not found at: " ++ modelPath ++
    ". Please ensure 'damage-detector.pt' is in the project directory."

/-- The error message of the `except` handler
(`st.error(f"Error during detection: {e}")`). -/
def detectionErrorMsg (e : String) : String :=
  "Error during detection: " ++ e

/-- The success message `f"Detected {len(boxes)} issue(s)!"`. -/
def detectedMsg (n : Nat) : String :=
  "Detected " ++ toString n ++ " issue(s)!"

/-- The informational message of the zero-detection branch. -/
def noDamageMsg : String := "No visible damage detected."

/-- Numpy slicing `a[..., ::-1]` on an `(H, W, 3)` array: along the last
axis, the element at output index `c` is the input element at index
`n - 1 - c`. -/
def npRevLast (a : Img) : Img :=
  a.map (fun row =>
    row.map (fun px =>
      (List.range px.length).map (fun c => px.getD (px.length - 1 - c) 0)))

/-- Pixel access `img[i][j]` returning the channel triple, if in bounds. -/
def getPixel (a : Img) (i j : Nat) : Option (List Nat) :=
  (a.get? i).bind (fun row => row.get? j)

/-- Body of the `try` block of the analyze handler (source lines 111-144),
run against an oracle for the library calls.  Returns the trace emitted so
far together with the uncaught exception text, if one was raised.
`results[0]` on an empty result list raises Python's IndexError. -/
def tryBody (o : Oracle) (uf : String) : Trace × Option String :=
  match o.load with
  | .error e => (⟨[], [], [.loadModel]⟩, some e)
  | .ok _ =>
    match o.predict with
    | .error e => (⟨[], [], [.loadModel, .predict]⟩, some e)
    | .ok results =>
      match results with
      | [] =>
        (⟨[], [], [.loadModel, .predict]⟩, some "list index out of range")
      | r :: _ =>
        let saved := npRevLast r.plotImg
        match o.saveImg with
        | .error e =>
          (⟨[], [], [.loadModel, .predict, .plot, .saveImage]⟩, some e)
        | .ok _ =>
          let ops : List FsOp := [.write (result_path uf) (.image saved)]
          let calls : List LibCall := [.loadModel, .predict, .plot, .saveImage]
          match o.render with
          | .error e =>
            (⟨[.subheader "2. Detection Results"], ops,
              calls ++ [.renderImage]⟩, some e)
          | .ok _ =>
            let msg : Ev :=
              if r.boxes.length > 0 then .success (detectedMsg r.boxes.length)
              else .info noDamageMsg
            (⟨[.subheader "2. Detection Results",
               .image (result_path uf) "Detected Damages", msg],
              ops, calls ++ [.renderImage]⟩, none)

/-- The analyze-button handler (source lines 105-146): if the model file
is absent, report the error and stop; otherwise run the `try` body and
catch any exception into a user-visible error message. -/
def analyze (modelPath : String) (modelExists : Bool) (o : Oracle)
    (uf : String) : Trace :=
  if modelExists then
    match tryBody o uf with
    | (t, none) => t
    | (t, some e) =>
      ⟨t.events ++ [.error (detectionErrorMsg e)], t.ops, t.calls⟩
  else
    ⟨[.error (modelNotFoundMsg modelPath)], [], []⟩

/-- The upload branch (source lines 94-103): save the uploaded bytes under
the generated unique filename and display the original image. -/
def uploadTrace (uuidStr name : String) (content : List Nat) : Trace :=
  let uf := unique_filename uuidStr name
  ⟨[.image (input_path uf) "Original Image"],
   [.write (input_path uf) (.bytes content)], []⟩

/-- One full user interaction: an upload, optionally followed by a click
on the analyze button. -/
structure Interaction where
  uuidStr : String
  origName : String
  content : List Nat
  modelExists : Bool
  oracle : Oracle
  analyzeClicked : Bool
deriving DecidableEq

/-- Trace of one interaction: the upload trace, followed by the analyze
handler trace when the button was clicked. -/
def interactionTrace (modelPath : String) (it : Interaction) : Trace :=
  if it.analyzeClicked then
    ⟨(uploadTrace it.uuidStr it.origName it.content).events
       ++ (analyze modelPath it.modelExists it.oracle
            (unique_filename it.uuidStr it.origName)).events,
     (uploadTrace it.uuidStr it.origName it.content).ops
       ++ (analyze modelPath it.modelExists it.oracle
            (unique_filename it.uuidStr it.origName)).ops,
     (uploadTrace it.uuidStr it.origName it.content).calls
       ++ (analyze modelPath it.modelExists it.oracle
            (unique_filename it.uuidStr it.origName)).calls⟩
  else uploadTrace it.uuidStr it.origName it.content

/-- Directory state: which local directories exist. -/
abbrev DirState := String → Bool

/-- CPython `os.makedirs(name, exist_ok=True)`: afterwards the directory exists;
an already existing directory is not an error and nothing else changes. -/
def makedirs (name : String) (d : DirState) : DirState :=
  fun x => if x = name then true else d x

/-- The startup code at module top (source lines 58-59): create
`uploads/` and `results/` if absent. -/
def startup (d : DirState) : DirState :=
  makedirs RESULT_FOLDER (makedirs UPLOAD_FOLDER d)

/-- A whole app run: the startup code executes once at module import,
before any interaction is handled; each interaction then produces its
trace. -/
structure AppRun where
  dirsAfterStartup : DirState
  traces : List Trace

/-- Execute the app: startup first, then the interactions. -/
def runApp (modelPath : String) (d0 : DirState)
    (its : List Interaction) : AppRun :=
  ⟨startup d0, its.map (interactionTrace modelPath)⟩

/-- Paths written by a list of filesystem operations. -/
def writePaths : List FsOp → List String
  | [] => []
  | .write p _ :: rest => p :: writePaths rest
  | .delete _ :: rest => writePaths rest

/-- Whether an operation is a deletion. -/
def FsOp.isDelete : FsOp → Bool
  | .delete _ => true
  | .write _ _ => false

/-- Character list of `input_path uf`, unfolded. -/
lemma data_input_path (a : String) :
    (input_path a).data
      = 'u' :: 'p' :: 'l' :: 'o' :: 'a' :: 'd' :: 's' :: '/' :: a.data := rfl

/-- Character list of `result_path uf`, unfolded. -/
lemma data_result_path (a : String) :
    (result_path a).data
      = 'r' :: 'e' :: 's' :: 'u' :: 'l' :: 't' :: 's' :: '/' ::
        'r' :: 'e' :: 's' :: 'u' :: 'l' :: 't' :: '_' :: a.data := rfl

/-- An upload path never coincides with a result path: the folders differ. -/
lemma input_path_ne_result_path (a b : String) :
    input_path a ≠ result_path b := by
  intro h
  have hd := congrArg String.data h
  rw [data_input_path, data_result_path] at hd
  exact absurd (List.cons.inj hd).1 (by decide)

/-- Distinct filenames give distinct upload paths. -/
lemma input_path_inj (a b : String) (h : input_path a = input_path b) :
    a = b := by
  have hd := congrArg String.data h
  rw [data_input_path, data_input_path] at hd
  simp only [List.cons.injEq, true_and] at hd
  exact String.ext hd

/-- Distinct filenames give distinct result paths. -/
lemma result_path_inj (a b : String) (h : result_path a = result_path b) :
    a = b := by
  have hd := congrArg String.data h
  rw [data_result_path, data_result_path] at hd
  simp only [List.cons.injEq, true_and] at hd
  exact String.ext hd

/-- Distinct UUID strings of the same length give distinct unique
filenames, whatever the original names' extensions are. -/
lemma unique_filename_inj (u1 u2 n1 n2 : String)
    (hlen : u1.data.length = u2.data.length) (hne : u1 ≠ u2) :
    unique_filename u1 n1 ≠ unique_filename u2 n2 := by
  intro h
  apply hne
  apply String.ext
  have hd : u1.data ++ (file_ext n1).data = u2.data ++ (file_ext n2).data := by
    have h2 := congrArg String.data h
    simpa only [unique_filename, String.data_append] using h2
  exact List.append_inj_left hd hlen


/-- Reading a list at indices `n-1, n-2, ..., 0` yields its reversal. -/
lemma rangeMap_getD_eq_reverse (l : List Nat) :
    (List.range l.length).map (fun c => l.getD (l.length - 1 - c) 0)
      = l.reverse := by
  apply List.ext_getElem
  · simp
  · intro n h1 h2
    have hn : n < l.length := by simpa using h1
    rw [List.getElem_map, List.getElem_range, List.getElem_reverse,
      List.getD_eq_getElem l 0 (by omega)]

/-- Pixelwise reading of `npRevLast`: every in-bounds channel triple of the
output is the reversal of the corresponding input triple. -/
lemma getPixel_npRevLast (a : Img) (i j : Nat) :
    getPixel (npRevLast a) i j = (getPixel a i j).map List.reverse := by
  simp only [getPixel, npRevLast, List.get?_eq_getElem?, List.getElem?_map]
  cases h : a[i]? with
  | none => rfl
  | some row =>
    simp only [Option.map_some', Option.some_bind, List.getElem?_map]
    cases hr : row[j]? with
    | none => rfl
    | some px =>
      simp only [Option.map_some', Option.map_some]
      rw [rangeMap_getD_eq_reverse]

/-- Splitting `writePaths` over concatenation of operation lists. -/
lemma writePaths_append (l1 l2 : List FsOp) :
    writePaths (l1 ++ l2) = writePaths l1 ++ writePaths l2 := by
  induction l1 with
  | nil => rfl
  | cons op rest ih => cases op <;> simp [writePaths, ih]

/-- Every filesystem operation the try block emits is a write to the
result path. -/
lemma tryBody_ops_shape (o : Oracle) (uf : String) :
    (tryBody o uf).1.ops = []
    ∨ ∃ d, (tryBody o uf).1.ops = [FsOp.write (result_path uf) d] := by
  unfold tryBody
  cases o.load with
  | error e => exact Or.inl rfl
  | ok u =>
    cases o.predict with
    | error e => exact Or.inl rfl
    | ok results =>
      cases results with
      | nil => exact Or.inl rfl
      | cons r rest =>
        cases o.saveImg with
        | error e => exact Or.inl rfl
        | ok u2 =>
          cases o.render with
          | error e => exact Or.inr ⟨_, rfl⟩
          | ok u3 => exact Or.inr ⟨_, rfl⟩

/-- The analyze handler's filesystem operations are those of the try
block: the except handler and the missing-model branch write nothing. -/
lemma analyze_ops_shape (mp : String) (me : Bool) (o : Oracle)
    (uf : String) :
    (analyze mp me o uf).ops = []
    ∨ ∃ d, (analyze mp me o uf).ops = [FsOp.write (result_path uf) d] := by
  cases me with
  | false => exact Or.inl rfl
  | true =>
    have hshape := tryBody_ops_shape o uf
    unfold analyze
    cases htb : tryBody o uf with
    | mk t exc =>
      rw [htb] at hshape
      cases exc with
      | none => simpa using hshape
      | some e => simpa using hshape

/-- The try block never deletes a file. -/
lemma tryBody_no_delete (o : Oracle) (uf : String) :
    ∀ op ∈ (tryBody o uf).1.ops, op.isDelete = false := by
  intro op hop
  rcases tryBody_ops_shape o uf with h | ⟨d, h⟩
  · rw [h] at hop; cases hop
  · rw [h] at hop
    simp only [List.mem_singleton] at hop
    subst hop
    rfl

/-- The analyze handler never deletes a file. -/
lemma analyze_no_delete (mp : String) (me : Bool) (o : Oracle)
    (uf : String) :
    ∀ op ∈ (analyze mp me o uf).ops, op.isDelete = false := by
  intro op hop
  rcases analyze_ops_shape mp me o uf with h | ⟨d, h⟩
  · rw [h] at hop; cases hop
  · rw [h] at hop
    simp only [List.mem_singleton] at hop
    subst hop
    rfl


/-- C1: when the model file is absent, the analyze handler emits exactly
the specific model-not-found error, performs no filesystem operation and
makes no library call (in particular the model is never loaded and
`predict` is never called), whatever the library oracle would have done;
the handler still returns normally, so the failure blocks only this
invocation. -/
theorem missing_model_blocks_inference (mp : String) (o : Oracle)
    (uf : String) :
    analyze mp false o uf
      = ⟨[Ev.error (modelNotFoundMsg mp)], [], []⟩ := rfl

/-- C3: an exception raised at any point of the try block - model
loading, prediction (including an empty result list), result-image
saving, or result rendering - is caught and turned into a single
user-visible error message carrying the exception text verbatim; the
handler returns a trace (it does not terminate the app) and each library
call appears at most once (no retry). -/
theorem inference_exception_caught_verbatim (mp uf e : String)
    (pr : Except String (List YoloResult)) (sv rn : Except String Unit)
    (r : YoloResult) (t : List YoloResult) :
    analyze mp true ⟨.error e, pr, sv, rn⟩ uf
      = ⟨[Ev.error (detectionErrorMsg e)], [], [.loadModel]⟩
    ∧ analyze mp true ⟨.ok (), .error e, sv, rn⟩ uf
      = ⟨[Ev.error (detectionErrorMsg e)], [], [.loadModel, .predict]⟩
    ∧ analyze mp true ⟨.ok (), .ok [], sv, rn⟩ uf
      = ⟨[Ev.error (detectionErrorMsg "list index out of range")], [],
         [.loadModel, .predict]⟩
    ∧ analyze mp true ⟨.ok (), .ok (r :: t), .error e, rn⟩ uf
      = ⟨[Ev.error (detectionErrorMsg e)], [],
         [.loadModel, .predict, .plot, .saveImage]⟩
    ∧ analyze mp true ⟨.ok (), .ok (r :: t), .ok (), .error e⟩ uf
      = ⟨[Ev.subheader "2. Detection Results",
          Ev.error (detectionErrorMsg e)],
         [.write (result_path uf) (.image (npRevLast r.plotImg))],
         [.loadModel, .predict, .plot, .saveImage, .renderImage]⟩ :=
  ⟨rfl, rfl, rfl, rfl, rfl⟩

/-- C5: on a fully successful inference the one file the analyze handler
writes is the annotated image, stored in the results folder under the
filename derived from the upload's unique filename by prefixing it with
`result_`. -/
theorem result_saved_under_derived_filename (mp uf : String)
    (r : YoloResult) (t : List YoloResult) :
    (analyze mp true ⟨.ok (), .ok (r :: t), .ok (), .ok ()⟩ uf).ops
      = [FsOp.write (result_path uf) (.image (npRevLast r.plotImg))]
    ∧ result_path uf = "results" ++ "/" ++ ("result_" ++ uf) :=
  ⟨rfl, rfl⟩

/-- C9: everything the analyze handler shows and saves is derived from
the first element of the prediction output only: replacing the tail of
the result list changes nothing in the handler's trace. -/
theorem only_first_result_matters (mp uf : String) (r : YoloResult)
    (t1 t2 : List YoloResult) (ld sv rn : Except String Unit) :
    analyze mp true ⟨ld, .ok (r :: t1), sv, rn⟩ uf
      = analyze mp true ⟨ld, .ok (r :: t2), sv, rn⟩ uf := by
  cases ld with
  | error e => rfl
  | ok u =>
    cases sv with
    | error e => rfl
    | ok u2 =>
      cases rn with
      | error e => rfl
      | ok u3 => rfl

/-- C7: startup runs before any interaction is handled and creates the
`uploads` and `results` directories if absent: after startup both exist,
an already existing directory is preserved (not an error), and no other
directory is touched. -/
theorem startup_creates_upload_and_result_dirs (mp : String)
    (d0 : DirState) (its : List Interaction) :
    (runApp mp d0 its).dirsAfterStartup UPLOAD_FOLDER = true
    ∧ (runApp mp d0 its).dirsAfterStartup RESULT_FOLDER = true
    ∧ ∀ d, d ≠ UPLOAD_FOLDER → d ≠ RESULT_FOLDER →
        (runApp mp d0 its).dirsAfterStartup d = d0 d := by
  refine ⟨?_, ?_, ?_⟩
  · show startup d0 UPLOAD_FOLDER = true
    unfold startup makedirs
    rw [if_neg (by decide), if_pos rfl]
  · show startup d0 RESULT_FOLDER = true
    unfold startup makedirs
    rw [if_pos rfl]
  · intro d h1 h2
    show startup d0 d = d0 d
    unfold startup makedirs
    rw [if_neg h2, if_neg h1]

/-- Closed witness for C7 at a concrete empty directory state. -/
theorem startup_creates_upload_and_result_dirs_witness :
    (runApp "m" (fun _ => false) []).dirsAfterStartup "uploads" = true
    ∧ (runApp "m" (fun _ => false) []).dirsAfterStartup "results" = true
    ∧ (runApp "m" (fun _ => false) []).dirsAfterStartup "cache" = false := by
  refine ⟨?_, ?_, ?_⟩
  · exact (startup_creates_upload_and_result_dirs "m" (fun _ => false) []).1
  · exact (startup_creates_upload_and_result_dirs "m" (fun _ => false) []).2.1
  · exact (startup_creates_upload_and_result_dirs "m" (fun _ => false)
      []).2.2 "cache" (by decide) (by decide)


/-- A character that occurs nowhere in the list has no last index. -/
lemma lastIndexOf_eq_none_of_not_mem (c : Char) (l : List Char)
    (h : c ∉ l) : lastIndexOf c l = none := by
  induction l with
  | nil => rfl
  | cons x xs ih =>
    simp only [lastIndexOf]
    rw [ih (fun hm => h (List.mem_cons_of_mem x hm))]
    exact if_neg (fun hx : x = c => h (hx ▸ List.mem_cons_self x xs))

/-- Lower bound of `rfind`: it returns an index or `-1`. -/
lemma neg_one_le_rfind (c : Char) (l : List Char) : -1 ≤ rfind c l := by
  unfold rfind
  cases lastIndexOf c l with
  | none => exact le_refl (-1)
  | some k =>
    show (-1 : Int) ≤ (k : Int)
    omega

/-- Value of `rfind` when the character does not occur. -/
lemma rfind_eq_neg_one (c : Char) (l : List Char) (h : c ∉ l) :
    rfind c l = -1 := by
  unfold rfind
  rw [lastIndexOf_eq_none_of_not_mem c l h]

/-- A path without any dot splits into itself and an empty extension. -/
lemma splitextCore_snd_of_no_dot (p : List Char) (h : '.' ∉ p) :
    (splitextCore p).2 = [] := by
  unfold splitextCore
  rw [rfind_eq_neg_one '.' p h,
    if_neg (by have := neg_one_le_rfind '/' p; omega)]

/-- String version: a name without any dot has an empty extension. -/
lemma splitext_snd_of_no_dot (name : String) (h : '.' ∉ name.data) :
    (splitext name).2 = "" := by
  unfold splitext
  rw [splitextCore_snd_of_no_dot name.data h]

/-- C10: the stored name is the UUID string with the `splitext` extension
of the user-supplied name appended unchanged; a name with an empty
extension - in particular any name without a dot - is stored as the bare
UUID. -/
theorem upload_extension_verbatim_from_splitext (u name : String) :
    unique_filename u name = u ++ (splitext name).2
    ∧ ((splitext name).2 = "" → unique_filename u name = u)
    ∧ ('.' ∉ name.data → unique_filename u name = u) := by
  refine ⟨rfl, ?_, ?_⟩
  · intro h
    show u ++ file_ext name = u
    rw [file_ext, h, String.append_empty]
  · intro h
    show u ++ file_ext name = u
    rw [file_ext, splitext_snd_of_no_dot name h, String.append_empty]

/-- Closed witness for C10: a dotless name stores the bare UUID, and an
upper-case extension is appended verbatim. -/
theorem upload_extension_verbatim_from_splitext_witness :
    unique_filename "abc" "photo" = "abc"
    ∧ unique_filename "abc" "car.PNG" = "abc" ++ ".PNG" := by
  constructor
  · exact (upload_extension_verbatim_from_splitext "abc" "photo").2.1
      (by decide)
  · exact ((upload_extension_verbatim_from_splitext "abc"
      "car.PNG").1).trans (by decide)

/-- C4: an upload writes exactly the uploaded bytes, once, to the uploads
folder under the freshly generated name (UUID4 string plus the original
extension), and two uploads whose UUID strings differ (UUID4 strings all
have the same rendered length) get distinct filenames. -/
theorem upload_saves_bytes_under_fresh_unique_name
    (u1 u2 n1 n2 name : String) (content : List Nat)
    (hlen : u1.data.length = u2.data.length) (hne : u1 ≠ u2) :
    uploadTrace u1 name content
      = ⟨[Ev.image (input_path (unique_filename u1 name)) "Original Image"],
         [FsOp.write (input_path (unique_filename u1 name))
           (.bytes content)], []⟩
    ∧ unique_filename u1 n1 ≠ unique_filename u2 n2 :=
  ⟨rfl, unique_filename_inj u1 u2 n1 n2 hlen hne⟩

/-- Closed witness for C4 at two concrete equal-length UUID strings. -/
theorem upload_saves_bytes_under_fresh_unique_name_witness :
    unique_filename "aaaa" "x.png" ≠ unique_filename "bbbb" "y.png" :=
  (upload_saves_bytes_under_fresh_unique_name "aaaa" "bbbb" "x.png"
    "y.png" "z.png" [7] (by decide) (by decide)).2

/-- C8: the one file saved by a successful analysis holds the plotted
annotation array with its last (colour-channel) axis reversed: every
in-bounds pixel of the stored image is the reversal of the BGR triple the
model's `plot()` returned at that position. -/
theorem saved_image_reverses_channels (mp uf : String) (r : YoloResult)
    (t : List YoloResult) :
    (analyze mp true ⟨.ok (), .ok (r :: t), .ok (), .ok ()⟩ uf).ops
      = [FsOp.write (result_path uf) (.image (npRevLast r.plotImg))]
    ∧ ∀ (i j : Nat) (px : List Nat),
        getPixel r.plotImg i j = some px →
        getPixel (npRevLast r.plotImg) i j = some px.reverse := by
  refine ⟨rfl, ?_⟩
  intro i j px h
  rw [getPixel_npRevLast, h]
  rfl

/-- Closed witness for C8 at a concrete one-pixel BGR image. -/
theorem saved_image_reverses_channels_witness :
    getPixel (npRevLast [[[10, 20, 30]]]) 0 0 = some [30, 20, 10] :=
  (saved_image_reverses_channels "m" "f" ⟨[[[10, 20, 30]]], []⟩ []).2
    0 0 [10, 20, 30] (by decide)

/-- C2: after a successful inference exactly one of the two outcome
messages is shown: the informational no-damage message when the detection
list of the first result is empty, otherwise the success message carrying
the detection count. -/
theorem detection_count_messages (mp uf : String) (r : YoloResult)
    (t : List YoloResult) :
    (r.boxes = [] →
      Ev.info noDamageMsg
          ∈ (analyze mp true ⟨.ok (), .ok (r :: t), .ok (), .ok ()⟩ uf).events
      ∧ ∀ n, Ev.success (detectedMsg n)
          ∉ (analyze mp true ⟨.ok (), .ok (r :: t), .ok (), .ok ()⟩ uf).events)
    ∧ (r.boxes ≠ [] →
      Ev.success (detectedMsg r.boxes.length)
          ∈ (analyze mp true ⟨.ok (), .ok (r :: t), .ok (), .ok ()⟩ uf).events
      ∧ Ev.info noDamageMsg
          ∉ (analyze mp true ⟨.ok (), .ok (r :: t), .ok (), .ok ()⟩ uf).events) := by
  have hev : (analyze mp true ⟨.ok (), .ok (r :: t), .ok (), .ok ()⟩ uf).events
      = [Ev.subheader "2. Detection Results",
         Ev.image (result_path uf) "Detected Damages",
         if r.boxes.length > 0 then Ev.success (detectedMsg r.boxes.length)
         else Ev.info noDamageMsg] := rfl
  constructor
  · intro h
    rw [hev]
    simp [h, noDamageMsg, detectedMsg]
  · intro h
    have hl : 0 < r.boxes.length := List.length_pos.mpr h
    rw [hev, if_pos hl]
    simp [noDamageMsg, detectedMsg]

/-- Closed witness for C2: one concrete run with no detections, one with
a single detection. -/
theorem detection_count_messages_witness :
    Ev.info noDamageMsg
      ∈ (analyze "m" true
          ⟨.ok (), .ok [(⟨[], []⟩ : YoloResult)], .ok (), .ok ()⟩
          "f").events
    ∧ Ev.success (detectedMsg 1)
      ∈ (analyze "m" true
          ⟨.ok (), .ok [(⟨[], [⟨0, []⟩]⟩ : YoloResult)], .ok (), .ok ()⟩
          "f").events := by
  constructor
  · exact ((detection_count_messages "m" "f" ⟨[], []⟩ []).1 rfl).1
  · exact ((detection_count_messages "m" "f" ⟨[], [⟨0, []⟩]⟩ []).2
      (by decide)).1


/-- Shape of one interaction's filesystem operations: the upload write,
possibly followed by the single result write. -/
lemma interaction_ops_shape (mp : String) (it : Interaction) :
    (interactionTrace mp it).ops
      = [FsOp.write (input_path (unique_filename it.uuidStr it.origName))
          (.bytes it.content)]
    ∨ ∃ d, (interactionTrace mp it).ops
      = [FsOp.write (input_path (unique_filename it.uuidStr it.origName))
          (.bytes it.content),
         FsOp.write (result_path (unique_filename it.uuidStr it.origName))
          d] := by
  unfold interactionTrace
  cases hc : it.analyzeClicked with
  | false => exact Or.inl rfl
  | true =>
    rw [if_pos rfl]
    rcases analyze_ops_shape mp it.modelExists it.oracle
        (unique_filename it.uuidStr it.origName) with h | ⟨d, h⟩
    · left
      show (uploadTrace it.uuidStr it.origName it.content).ops
          ++ (analyze mp it.modelExists it.oracle
              (unique_filename it.uuidStr it.origName)).ops = _
      rw [h]
      rfl
    · right
      refine ⟨d, ?_⟩
      show (uploadTrace it.uuidStr it.origName it.content).ops
          ++ (analyze mp it.modelExists it.oracle
              (unique_filename it.uuidStr it.origName)).ops = _
      rw [h]
      rfl

/-- Paths an interaction writes: the upload path alone, or the upload
path followed by the result path. -/
lemma interaction_writePaths (mp : String) (it : Interaction) :
    writePaths (interactionTrace mp it).ops
      = [input_path (unique_filename it.uuidStr it.origName)]
    ∨ writePaths (interactionTrace mp it).ops
      = [input_path (unique_filename it.uuidStr it.origName),
         result_path (unique_filename it.uuidStr it.origName)] := by
  rcases interaction_ops_shape mp it with h | ⟨d, h⟩
  · left; rw [h]; rfl
  · right; rw [h]; rfl

/-- Every path an interaction writes is its upload path or its result
path. -/
lemma interaction_writePaths_subset (mp : String) (it : Interaction) :
    ∀ x ∈ writePaths (interactionTrace mp it).ops,
      x ∈ [input_path (unique_filename it.uuidStr it.origName),
           result_path (unique_filename it.uuidStr it.origName)] := by
  intro x hx
  rcases interaction_writePaths mp it with h | h <;> rw [h] at hx
  · simp only [List.mem_singleton] at hx
    exact hx ▸ List.mem_cons_self _ _
  · exact hx

/-- An interaction never deletes a file. -/
lemma interaction_no_delete (mp : String) (it : Interaction) :
    ∀ op ∈ (interactionTrace mp it).ops, op.isDelete = false := by
  intro op hop
  rcases interaction_ops_shape mp it with h | ⟨d, h⟩
  · rw [h] at hop
    simp only [List.mem_singleton] at hop
    subst hop
    rfl
  · rw [h] at hop
    simp only [List.mem_cons, List.not_mem_nil, or_false] at hop
    rcases hop with hop | hop <;> (subst hop; rfl)

/-- Splitting `writePaths` over a flattened list of operation lists. -/
lemma writePaths_flatten (L : List (List FsOp)) :
    writePaths L.flatten = (L.map writePaths).flatten := by
  induction L with
  | nil => rfl
  | cons l rest ih =>
    rw [List.flatten_cons, writePaths_append, ih, List.map_cons,
      List.flatten_cons]

/-- Candidate paths of distinct interactions never collide when their
unique filenames differ. -/
lemma paths_cross_ne (uf1 uf2 : String) (hne : uf1 ≠ uf2) :
    ∀ x ∈ [input_path uf1, result_path uf1],
      ∀ y ∈ [input_path uf2, result_path uf2], x ≠ y := by
  intro x hx y hy
  simp only [List.mem_cons, List.not_mem_nil, or_false] at hx hy
  rcases hx with rfl | rfl <;> rcases hy with rfl | rfl
  · exact fun heq => hne (input_path_inj _ _ heq)
  · exact input_path_ne_result_path _ _
  · exact Ne.symm (input_path_ne_result_path _ _)
  · exact fun heq => hne (result_path_inj _ _ heq)

/-- C6: over a whole app run whose rendered UUID strings are pairwise
distinct (each of the canonical 36-character form), no filesystem
operation is a deletion and the written paths are pairwise distinct:
every uploaded image and every result image is written exactly once and
no existing file in `uploads/` or `results/` is rewritten or removed -
the directories only accumulate files. -/
theorem files_written_once_never_deleted (mp : String) (d0 : DirState)
    (its : List Interaction)
    (hlen : ∀ it ∈ its, it.uuidStr.data.length = 36)
    (hinj : (its.map Interaction.uuidStr).Pairwise (· ≠ ·)) :
    (∀ op ∈ ((runApp mp d0 its).traces.map Trace.ops).flatten,
        op.isDelete = false)
    ∧ (writePaths (((runApp mp d0 its).traces.map Trace.ops).flatten)).Pairwise
        (· ≠ ·) := by
  have htr : (runApp mp d0 its).traces.map Trace.ops
      = its.map (fun it => (interactionTrace mp it).ops) := by
    show (its.map (interactionTrace mp)).map Trace.ops = _
    rw [List.map_map]
    rfl
  constructor
  · intro op hop
    rw [htr, List.mem_flatten] at hop
    rcases hop with ⟨l, hl, hop⟩
    rw [List.mem_map] at hl
    rcases hl with ⟨it, hit, rfl⟩
    exact interaction_no_delete mp it op hop
  · rw [htr, writePaths_flatten, List.map_map]
    rw [List.pairwise_flatten]
    constructor
    · intro l hl
      rw [List.mem_map] at hl
      rcases hl with ⟨it, hit, rfl⟩
      show List.Pairwise _ (writePaths (interactionTrace mp it).ops)
      rcases interaction_writePaths mp it with h | h <;> rw [h]
      · exact List.pairwise_singleton _ _
      · refine List.Pairwise.cons ?_ (List.pairwise_singleton _ _)
        intro y hy
        simp only [List.mem_singleton] at hy
        subst hy
        exact input_path_ne_result_path _ _
    · rw [List.pairwise_map]
      have hbase : its.Pairwise
          (fun a b => a.uuidStr ≠ b.uuidStr) := by
        have := hinj
        rw [List.pairwise_map] at this
        exact this
      refine List.Pairwise.imp_of_mem ?_ hbase
      intro it1 it2 hit1 hit2 hne
      intro x hx y hy
      have hl12 : it1.uuidStr.data.length = it2.uuidStr.data.length :=
        (hlen it1 hit1).trans (hlen it2 hit2).symm
      have hufne := unique_filename_inj it1.uuidStr it2.uuidStr
        it1.origName it2.origName hl12 hne
      exact paths_cross_ne _ _ hufne x
        (interaction_writePaths_subset mp it1 x hx) y
        (interaction_writePaths_subset mp it2 y hy)

/-- Closed witness for C6: a concrete two-interaction session. -/
theorem files_written_once_never_deleted_witness :
    (writePaths (((runApp "m" (fun _ => false)
      [⟨"00000000-0000-4000-8000-000000000000", "a.png", [1], true,
        ⟨.ok (), .ok [], .ok (), .ok ()⟩, true⟩,
       ⟨"11111111-1111-4111-8111-111111111111", "b.png", [2], true,
        ⟨.ok (), .ok [], .ok (), .ok ()⟩, true⟩]).traces.map
      Trace.ops).flatten)).Pairwise (· ≠ ·) :=
  (files_written_once_never_deleted "m" (fun _ => false)
    [⟨"00000000-0000-4000-8000-000000000000", "a.png", [1], true,
      ⟨.ok (), .ok [], .ok (), .ok ()⟩, true⟩,
     ⟨"11111111-1111-4111-8111-111111111111", "b.png", [2], true,
      ⟨.ok (), .ok [], .ok (), .ok ()⟩, true⟩]
    (by decide) (by decide)).2

end App
